import Mathlib

/-
Verification of the credential-federation core of the narwhal_world repository.

The definitions below are a shallow embedding of src/libnar/libnar/libnar.py
(class Narcon and class FSProxy) and src/libnar/libnar/multicloud.py.
Python exceptions are modelled by PyResult, mutable dataclass fields by
explicit record passing, HTTP traffic by an environment of oracle responses
plus an explicit trace of the network calls issued, and Python dicts
(parsed JSON bodies) by association lists whose subscript raises KeyError
when the key is absent, exactly as in CPython.
-/

/-- Result of running a piece of Python code: a value, or a raised exception
carrying its message. -/
inductive PyResult (α : Type) where
  | ok (a : α)
  | exn (msg : String)
deriving DecidableEq

/-- Python dict.get on a parsed JSON object: returns none when the key is
absent instead of raising. -/
def pyGet (d : List (String × String)) (k : String) : Option String :=
  match d.find? (fun kv => kv.1 == k) with
  | some kv => some kv.2
  | none => none

/-- httpx Response.is_success: true exactly for 2xx status codes.
Response.raise_for_status raises for every non-2xx response. -/
def is_success (status : Nat) : Bool :=
  Nat.ble 200 status && Nat.blt status 300

-- ---------------------------------------------------------------------------
-- Model of json.dumps(..., separators=(",", ":"), sort_keys=True) and
-- urllib.parse.quote, for the exact value shape built by
-- Narcon.get_aws_caller_identity (libnar.py lines 398-404).
-- ---------------------------------------------------------------------------

/-- Lowercase hex digit, as used by the json module in \uXXXX escapes. -/
def hexDigitLower (n : Nat) : Char :=
  Char.ofNat (cond (Nat.blt n 10) (48 + n) (87 + n))

/-- Uppercase hex digit, as used by urllib.parse.quote in %XX escapes. -/
def hexDigitUpper (n : Nat) : Char :=
  Char.ofNat (cond (Nat.blt n 10) (48 + n) (55 + n))

/-- Four lowercase hex digits. -/
def hex4Lower (n : Nat) : String :=
  String.singleton (hexDigitLower (n / 4096 % 16)) ++
  String.singleton (hexDigitLower (n / 256 % 16)) ++
  String.singleton (hexDigitLower (n / 16 % 16)) ++
  String.singleton (hexDigitLower (n % 16))

/-- json module \uXXXX escape of a code point, with a surrogate pair for
code points above the basic multilingual plane, as CPython emits with
ensure_ascii=True. -/
def uEscape (n : Nat) : String :=
  cond (Nat.blt n 65536) ("\\u" ++ hex4Lower n)
    (let m := n - 65536
     "\\u" ++ hex4Lower (55296 + m / 1024) ++ "\\u" ++ hex4Lower (56320 + m % 1024))

/-- CPython json string escaping (ensure_ascii=True): quote, backslash and
the short control escapes, \uXXXX for the other characters outside
0x20..0x7e. -/
def jsonEscapeChar (c : Char) : String :=
  cond (c == '"') "\\\""
  (cond (c == '\\') "\\\\"
  (cond (c == Char.ofNat 8) "\\b"
  (cond (c == Char.ofNat 9) "\\t"
  (cond (c == Char.ofNat 10) "\\n"
  (cond (c == Char.ofNat 12) "\\f"
  (cond (c == Char.ofNat 13) "\\r"
  (cond (Nat.blt c.toNat 32 || Nat.blt 126 c.toNat) (uEscape c.toNat)
  (String.singleton c))))))))

/-- json.dumps of a Python str. -/
def jsonString (s : String) : String :=
  "\"" ++ String.join (s.toList.map jsonEscapeChar) ++ "\""

/-- Join with the item separator "," requested through separators=(",", ":")
(no extra whitespace). -/
def commaJoin : List String → String
  | [] => ""
  | [x] => x
  | x :: y :: xs => x ++ "," ++ commaJoin (y :: xs)

/-- Code-point lexicographic comparison of char lists, as Python compares
str values when sorting dict keys. -/
def listCharLt : List Char → List Char → Bool
  | _, [] => false
  | [], _ :: _ => true
  | a :: as, b :: bs =>
    cond (Nat.blt a.toNat b.toNat) true
      (cond (Nat.blt b.toNat a.toNat) false (listCharLt as bs))

/-- Python str < on two strings. -/
def strLtB (a b : String) : Bool := listCharLt a.toList b.toList

/-- Stable insertion of a key/serialized-value pair into a key-sorted list
(the inserted element goes before key-equal elements already present,
matching the stability of Python sorted). -/
def insortInsert (p : String × String) : List (String × String) → List (String × String)
  | [] => [p]
  | q :: qs => cond (strLtB q.1 p.1) (q :: insortInsert p qs) (p :: q :: qs)

/-- Stable sort by key, the sort_keys=True behaviour of json.dumps. -/
def sortPairs : List (String × String) → List (String × String)
  | [] => []
  | p :: ps => insortInsert p (sortPairs ps)

/-- json.dumps of a flat dict whose values are already serialized, with
sort_keys=True and separators=(",", ":"). -/
def dumpsObjSorted (kvs : List (String × String)) : String :=
  "\x7b" ++ commaJoin ((sortPairs kvs).map (fun kv => jsonString kv.1 ++ ":" ++ kv.2)) ++ "\x7d"

/-- UTF-8 encoding of a character as byte values. -/
def utf8Bytes (c : Char) : List Nat :=
  let n := c.toNat
  cond (Nat.blt n 128) [n]
  (cond (Nat.blt n 2048) [192 + n / 64, 128 + n % 64]
  (cond (Nat.blt n 65536) [224 + n / 4096, 128 + n / 64 % 64, 128 + n % 64]
  [240 + n / 262144, 128 + n / 4096 % 64, 128 + n / 64 % 64, 128 + n % 64]))

/-- Bytes urllib.parse.quote leaves unencoded with safe set "/": ASCII
letters, digits, underscore, dot, dash, tilde, and the slash. -/
def isUrlSafeByte (b : Nat) : Bool :=
  (Nat.ble 65 b && Nat.ble b 90) || (Nat.ble 97 b && Nat.ble b 122) ||
  (Nat.ble 48 b && Nat.ble b 57) || Nat.beq b 95 || Nat.beq b 46 ||
  Nat.beq b 45 || Nat.beq b 126 || Nat.beq b 47

/-- Percent-encoding of one byte, or the byte itself when safe. -/
def quoteByte (b : Nat) : String :=
  cond (isUrlSafeByte b) (String.singleton (Char.ofNat b))
    ("%" ++ String.singleton (hexDigitUpper (b / 16)) ++ String.singleton (hexDigitUpper (b % 16)))

/-- Model of urllib.parse.quote with the default safe set: UTF-8 encode,
then percent-encode every unsafe byte with uppercase hex. -/
def urlquote (s : String) : String :=
  String.join (s.toList.map (fun c => String.join ((utf8Bytes c).map quoteByte)))

-- ---------------------------------------------------------------------------
-- Data model: credential records (multicloud.py) and supporting values.
-- ---------------------------------------------------------------------------

/-- A frozen boto3 credential triple, as produced by
Narcon.get_aws_cred_session and by Cognito get_credentials_for_identity. -/
structure AwsCred where
  access_key_id : String
  secret_key : String
  session_token : String
deriving DecidableEq

/-- botocore AWSRequest: method, url and the header dict (insertion order
preserved, as request.headers.items() iterates it). -/
structure AWSRequest where
  method : String
  url : String
  headers : List (String × String)
deriving DecidableEq

/-- A decoded HTTP response: status code and parsed JSON object body. -/
structure HttpResponse where
  status : Nat
  body : List (String × String)
deriving DecidableEq

/-- The timezone attached to a datetime produced by dateutil isoparse:
tzutc() for "Z" or a zero offset, a fixed non-zero offset in minutes
otherwise, or no tzinfo for a naive timestamp. -/
inductive TZInfo where
  | utc
  | offset (minutes : Int)
  | naive
deriving DecidableEq

/-- A parsed timestamp: the instant it denotes as epoch seconds, and its
tzinfo. The source stores token_expiry as an ISO-8601 string and parses it
with dateutil parser.isoparse at check time; the parse itself is an
environment oracle (field isoparse of Env below). -/
structure PyDatetime where
  epoch : Int
  tz : TZInfo
deriving DecidableEq

/-- azure.core AccessToken: the token and its expiry as a Unix epoch int.
AZTokenCredential (libnar.py lines 41-46) is a transparent wrapper whose
get_token returns this value unchanged, so the model stores it directly. -/
structure AccessToken where
  token : String
  expires_on : Int
deriving DecidableEq

/-- multicloud.GCPCredInfo: every field defaults to None in the source. -/
structure GCPCredInfo where
  sa_email : Option String
  audience : Option String
  token_expiry : Option String
  token : Option String
  project : Option String
  refresh_mode : Option String
deriving DecidableEq

/-- multicloud.AWSCredInfo. -/
structure AWSCredInfo where
  id : Option String
  secret : Option String
  profile : Option String
deriving DecidableEq

/-- multicloud.AZCredInfo; credential holds the AZTokenCredential-wrapped
AccessToken. -/
structure AZCredInfo where
  account_name : Option String
  tenant_id : Option String
  client_id : Option String
  client_secret : Option String
  credential : Option AccessToken
deriving DecidableEq

/-- The CredInfo variants of multicloud.py as a tagged union; the source
uses duck typing over the three dataclasses. -/
inductive CredInfo where
  | gcp (g : GCPCredInfo)
  | aws (a : AWSCredInfo)
  | az (z : AZCredInfo)
deriving DecidableEq

/-- One outbound network request of the refresh pipeline:
the two Cognito identity-pool calls of get_cognito_token, the GCP STS
exchange POST of get_gcp_sts_token, the IAM-credentials POST of
gcp_impersonate_token, and the Azure client-assertion token flow. -/
inductive NetCall where
  | cognitoOpenId
  | cognitoCreds
  | stsExchange
  | impersonate (sa : String)
  | azureAssertion
deriving DecidableEq

/-- The outside world as an oracle: the SigV4 signer (botocore add_auth,
which extends the header set of the request it is given), the
environment-sourced boto3 credentials, one response per remote endpoint
(exn models a connection failure raised by the client library), the
dateutil isoparse result for each expiry string, the current clock, and the
Narcon debug flag (the flag only shrinks the requested token lifetime in
the impersonation payload, so it does not affect any modelled output). -/
structure Env where
  sign : AwsCred → String → String → AWSRequest → AWSRequest
  env_aws_cred : PyResult AwsCred
  cognito_openid : PyResult String
  cognito_creds : PyResult AwsCred
  sts_response : PyResult HttpResponse
  impersonate : String → PyResult HttpResponse
  azure_token : PyResult AccessToken
  isoparse : String → PyDatetime
  now : Int
  debug : Bool

-- ---------------------------------------------------------------------------
-- multicloud.py: VALID_CLOUD_VENDORS, CloudStorage and the factory.
-- ---------------------------------------------------------------------------

/-- multicloud.VALID_CLOUD_VENDORS. -/
def VALID_CLOUD_VENDORS : List String := ["aws", "gcp", "azure"]

/-- multicloud.CloudStorage, with the dataclass defaults. The fs handle
itself is modelled separately as GCSFileSystem where a claim needs it. -/
structure CloudStorage where
  cloud_vendor : String
  fs_use_async : Bool := false
  fs_anon : Bool := false
  cred_info : Option CredInfo := none
deriving DecidableEq

/-- multicloud.CloudStorageFactory.create: raises
ValueError("Invalid cloud vendor: <tag>!") for a tag outside
VALID_CLOUD_VENDORS, else returns CloudStorage(cloud_vendor). -/
def CloudStorageFactory.create (cloud_vendor : String) : PyResult CloudStorage :=
  cond (VALID_CLOUD_VENDORS.contains cloud_vendor)
    (PyResult.ok { cloud_vendor := cloud_vendor })
    (PyResult.exn ("Invalid cloud vendor: " ++ cloud_vendor ++ "!"))

/-- The gcsfs handle built by CloudStorage._set_gcp_fs: the token string of
the credential record is passed as the token constructor parameter and the
client keeps it for the lifetime of the handle (it does not re-read the
record afterwards). -/
structure GCSFileSystem where
  token : Option String
deriving DecidableEq

/-- CloudStorage._set_gcp_fs followed by get_fs caching: the handle is built
once from the token the record holds at construction time. -/
def set_gcp_fs (g : GCPCredInfo) : GCSFileSystem := { token := g.token }

-- ---------------------------------------------------------------------------
-- libnar.py: the Narcon federation pipeline.
-- ---------------------------------------------------------------------------

/-- Narcon constant AWS_US_REGION. -/
def AWS_US_REGION : String := "us-east-1"

/-- Narcon constant NARWHAL_SA. -/
def NARWHAL_SA : String := "narwhal-sa-smar@solution-eng-345114.iam.gserviceaccount.com"

/-- Narcon constant SAMA_EXT_SA. -/
def SAMA_EXT_SA : String := "sama-external@rd-prod-398911.iam.gserviceaccount.com"

/-- Narcon constant SAMA_EXT_AUDIENCE. -/
def SAMA_EXT_AUDIENCE : String :=
  "//iam.googleapis.com/projects/459623805419/locations/global/workloadIdentityPools/sama-external/providers/sama-external"

/-- Narcon.get_aws_cred_session: explicit credentials are frozen and
returned; with none supplied the boto3 default chain of the environment is
consulted (an oracle that may raise). -/
def get_aws_cred_session (env : Env) (aws_cred : Option AwsCred) : PyResult AwsCred :=
  match aws_cred with
  | some c => PyResult.ok c
  | none => env.env_aws_cred

/-- The AWSRequest Narcon.get_aws_caller_identity builds before signing:
GetCallerIdentity at sts.amazonaws.com with the Host header and the
x-goog-cloud-target-resource header carrying the audience. -/
def caller_identity_request (audience : String) (http_method : String) : AWSRequest :=
  { method := http_method,
    url := "https://sts.amazonaws.com/?Action=GetCallerIdentity&Version=2011-06-15",
    headers := [("Host", "sts.amazonaws.com"), ("x-goog-cloud-target-resource", audience)] }

/-- json.dumps of one {"key": k, "value": v} element of the headers list,
keys sorted. -/
def dumpsHeaders (hs : List (String × String)) : String :=
  "[" ++ commaJoin (hs.map (fun kv =>
    dumpsObjSorted [("key", jsonString kv.1), ("value", jsonString kv.2)])) ++ "]"

/-- json.dumps(token, separators=(",", ":"), sort_keys=True) for the token
dict built at libnar.py lines 399-403, whose insertion order is url,
method, headers. -/
def dumpsCallerIdentityToken (r : AWSRequest) : String :=
  dumpsObjSorted
    [("url", jsonString r.url), ("method", jsonString r.method), ("headers", dumpsHeaders r.headers)]

/-- Narcon.get_aws_caller_identity: resolve credentials, sign the
GetCallerIdentity request with SigV4 over service "sts" in AWS_US_REGION,
then URL-quote the canonical JSON dump of url, method and headers of the
signed request. Signing is local (no network call). -/
def get_aws_caller_identity (env : Env) (audience : String) (aws_cred : Option AwsCred)
    (http_method : String) : PyResult String :=
  match get_aws_cred_session env aws_cred with
  | PyResult.exn m => PyResult.exn m
  | PyResult.ok temp_cred =>
    let request := env.sign temp_cred "sts" AWS_US_REGION (caller_identity_request audience http_method)
    PyResult.ok (urlquote (dumpsCallerIdentityToken request))

/-- Narcon.get_cognito_token: fetch the developer-identity OpenID token
(one network call); with open_id=False additionally trade it for temporary
AWS credentials (a second network call). Any failure is wrapped into
FAILED TO RETRIEVE COGNITO TOKEN. The two get_secret reads feeding pool id
and logins are the opaque secret-lookup collaborator and issue no call in
this model. -/
def get_cognito_token (env : Env) (open_id : Bool) :
    PyResult (Sum String AwsCred) × List NetCall :=
  match env.cognito_openid with
  | PyResult.exn e =>
    (PyResult.exn ("FAILED TO RETRIEVE COGNITO TOKEN: " ++ e), [NetCall.cognitoOpenId])
  | PyResult.ok open_id_token =>
    cond open_id
      (PyResult.ok (Sum.inl open_id_token), [NetCall.cognitoOpenId])
      (match env.cognito_creds with
       | PyResult.exn e =>
         (PyResult.exn ("FAILED TO RETRIEVE COGNITO TOKEN: " ++ e),
          [NetCall.cognitoOpenId, NetCall.cognitoCreds])
       | PyResult.ok c =>
         (PyResult.ok (Sum.inr c), [NetCall.cognitoOpenId, NetCall.cognitoCreds]))

/-- Narcon.get_gcp_sts_token: one POST to the GCP STS endpoint.
raise_for_status turns every non-2xx status into an exception, wrapped into
FAILED TO RETRIEVE GCP STS TOKEN; on a 2xx response the function returns
response.json().get("access_token"), which is None when the field is
absent. The audience and subject token only shape the outgoing payload. -/
def get_gcp_sts_token (env : Env) (audience : String) (subject_token : String) :
    PyResult (Option String) × List NetCall :=
  match env.sts_response with
  | PyResult.exn e =>
    (PyResult.exn ("FAILED TO RETRIEVE GCP STS TOKEN: " ++ e), [NetCall.stsExchange])
  | PyResult.ok r =>
    cond (is_success r.status)
      (PyResult.ok (pyGet r.body "access_token"), [NetCall.stsExchange])
      (PyResult.exn "FAILED TO RETRIEVE GCP STS TOKEN: HTTPStatusError", [NetCall.stsExchange])

/-- Narcon.gcp_impersonate_token: one POST to the IAM-credentials
generateAccessToken endpoint for sa_email, bearer-authed with gcp_token;
non-2xx raises, otherwise the parsed JSON body is returned whole. The
debug flag only adds a lifetime field to the payload. -/
def gcp_impersonate_token (env : Env) (sa_email : String) (gcp_token : Option String) :
    PyResult (List (String × String)) × List NetCall :=
  match env.impersonate sa_email with
  | PyResult.exn e =>
    (PyResult.exn ("FAILED TO GENERATE IMPERSONATED GCP TOKEN: " ++ e), [NetCall.impersonate sa_email])
  | PyResult.ok r =>
    cond (is_success r.status)
      (PyResult.ok r.body, [NetCall.impersonate sa_email])
      (PyResult.exn "FAILED TO GENERATE IMPERSONATED GCP TOKEN: HTTPStatusError",
       [NetCall.impersonate sa_email])

/-- Result of a run of Narcon.generate_access_token: the outcome, the
credential record as left behind, and the network calls issued. -/
structure GenOut where
  res : PyResult Unit
  cred : GCPCredInfo
  calls : List NetCall
deriving DecidableEq

/-- The two trailing assignments of Narcon.generate_access_token
(lines 336-337). Each dict subscript is evaluated before its assignment, so
a body without accessToken raises with no field written, while a body with
accessToken but without expireTime writes token first and then raises,
leaving the record partially updated. -/
def assign_token_fields (cred_info : GCPCredInfo) (token_info : List (String × String))
    (calls : List NetCall) : GenOut :=
  match pyGet token_info "accessToken" with
  | none => { res := PyResult.exn "KeyError: accessToken", cred := cred_info, calls := calls }
  | some t =>
    let cred1 := { cred_info with token := some t }
    match pyGet token_info "expireTime" with
    | none => { res := PyResult.exn "KeyError: expireTime", cred := cred1, calls := calls }
    | some e =>
      { res := PyResult.ok (), cred := { cred1 with token_expiry := some e }, calls := calls }

/-- Narcon.generate_access_token. internal mode: sign with environment
credentials, exchange at STS, impersonate NARWHAL_SA once. external mode:
fetch temporary credentials from Cognito, sign, exchange at STS against the
fixed external audience, only then check sa_email (raising SA EMAIL NOT SET
when unset), impersonate the SAMA_EXT_SA bridge and then the final account.
Any other refresh_mode returns None without touching the record. A missing
audience in internal mode makes SigV4 canonical-header construction raise
inside botocore before any network call. -/
def generate_access_token (env : Env) (cred_info : GCPCredInfo) : GenOut :=
  if cred_info.refresh_mode = some "internal" then
    match cred_info.audience with
    | none => { res := PyResult.exn "AttributeError: NoneType header during SigV4 signing",
                cred := cred_info, calls := [] }
    | some aud =>
      match get_aws_caller_identity env aud none "POST" with
      | PyResult.exn m => { res := PyResult.exn m, cred := cred_info, calls := [] }
      | PyResult.ok subject_token =>
        match get_gcp_sts_token env aud subject_token with
        | (PyResult.exn m, c1) => { res := PyResult.exn m, cred := cred_info, calls := c1 }
        | (PyResult.ok sts_token, c1) =>
          match gcp_impersonate_token env NARWHAL_SA sts_token with
          | (PyResult.exn m, c2) => { res := PyResult.exn m, cred := cred_info, calls := c1 ++ c2 }
          | (PyResult.ok token_info, c2) => assign_token_fields cred_info token_info (c1 ++ c2)
  else if cred_info.refresh_mode = some "external" then
    match get_cognito_token env false with
    | (PyResult.exn m, c0) => { res := PyResult.exn m, cred := cred_info, calls := c0 }
    | (PyResult.ok (Sum.inl _), c0) =>
      -- unreachable: open_id=False always yields credentials
      { res := PyResult.exn "COGNITO RETURNED UNEXPECTED OPEN ID TOKEN", cred := cred_info, calls := c0 }
    | (PyResult.ok (Sum.inr aws_cred), c0) =>
      match get_aws_caller_identity env SAMA_EXT_AUDIENCE (some aws_cred) "POST" with
      | PyResult.exn m => { res := PyResult.exn m, cred := cred_info, calls := c0 }
      | PyResult.ok subject_token =>
        match get_gcp_sts_token env SAMA_EXT_AUDIENCE subject_token with
        | (PyResult.exn m, c1) => { res := PyResult.exn m, cred := cred_info, calls := c0 ++ c1 }
        | (PyResult.ok sts_token, c1) =>
          match cred_info.sa_email with
          | none => { res := PyResult.exn "SA EMAIL NOT SET", cred := cred_info, calls := c0 ++ c1 }
          | some sa =>
            match gcp_impersonate_token env SAMA_EXT_SA sts_token with
            | (PyResult.exn m, c2) =>
              { res := PyResult.exn m, cred := cred_info, calls := c0 ++ c1 ++ c2 }
            | (PyResult.ok bridge_info, c2) =>
              match pyGet bridge_info "accessToken" with
              | none => { res := PyResult.exn "KeyError: accessToken", cred := cred_info,
                          calls := c0 ++ c1 ++ c2 }
              | some ext_token =>
                match gcp_impersonate_token env sa (some ext_token) with
                | (PyResult.exn m, c3) =>
                  { res := PyResult.exn m, cred := cred_info, calls := c0 ++ c1 ++ c2 ++ c3 }
                | (PyResult.ok token_info, c3) =>
                  assign_token_fields cred_info token_info (c0 ++ c1 ++ c2 ++ c3)
  else
    { res := PyResult.ok (), cred := cred_info, calls := [] }

/-- Result of a run of Narcon.refresh_token_if_expired. -/
structure RefreshOut where
  res : PyResult Unit
  cred : CredInfo
  calls : List NetCall
deriving DecidableEq

/-- Narcon.refresh_token_if_expired. gcp: parse token_expiry (a None
expiry makes isoparse raise TypeError), reject a non-tzutc tzinfo with
ValueError("GCP TOKEN EXPIRY MUST BE IN UTC FORMAT!"), and re-generate the
token when the expiry instant is not after now. azure: compare the epoch
expiry of the held AccessToken against int(time.time()) and, when due, run
the client-assertion flow and replace the credential with a fresh
AZTokenCredential. Every other vendor string falls through both branches
and the function returns without touching the record. -/
def refresh_token_if_expired (env : Env) (cred_info : CredInfo) (cloud_vendor : String) :
    RefreshOut :=
  if cloud_vendor = "gcp" then
    match cred_info with
    | CredInfo.gcp g =>
      match g.token_expiry with
      | none => { res := PyResult.exn "TypeError: isoparse(None)", cred := cred_info, calls := [] }
      | some s =>
        let expiry_time := env.isoparse s
        if expiry_time.tz ≠ TZInfo.utc then
          { res := PyResult.exn "GCP TOKEN EXPIRY MUST BE IN UTC FORMAT!",
            cred := cred_info, calls := [] }
        else if expiry_time.epoch ≤ env.now then
          let out := generate_access_token env g
          { res := out.res, cred := CredInfo.gcp out.cred, calls := out.calls }
        else
          { res := PyResult.ok (), cred := cred_info, calls := [] }
    | _ => { res := PyResult.exn "AttributeError: token_expiry", cred := cred_info, calls := [] }
  else if cloud_vendor = "azure" then
    match cred_info with
    | CredInfo.az z =>
      match z.credential with
      | none => { res := PyResult.exn "AttributeError: access_token", cred := cred_info, calls := [] }
      | some holder =>
        if holder.expires_on ≤ env.now then
          match env.azure_token with
          | PyResult.exn m => { res := PyResult.exn m, cred := cred_info, calls := [NetCall.azureAssertion] }
          | PyResult.ok tok =>
            { res := PyResult.ok (),
              cred := CredInfo.az { z with credential := some tok },
              calls := [NetCall.azureAssertion] }
        else
          { res := PyResult.ok (), cred := cred_info, calls := [] }
    | _ => { res := PyResult.exn "AttributeError: credential", cred := cred_info, calls := [] }
  else
    { res := PyResult.ok (), cred := cred_info, calls := [] }

-- ---------------------------------------------------------------------------
-- libnar.py: FSProxy and the storage session it wraps.
-- ---------------------------------------------------------------------------

/-- An attribute of the wrapped fs handle as __getattr__ sees it: a plain
value, or a callable (a method already bound to the handle). -/
inductive PyAttr (α β : Type) where
  | value (v : β)
  | callable (f : α → β)

/-- What FSProxy.__getattr__ hands back: the untouched value, or the
wrapper closure that first runs pre_method and then the bound callable. -/
inductive ProxyAttr (γ α β : Type) where
  | value (v : β)
  | wrapped (g : γ → α → γ × β)

/-- FSProxy: the wrapped fs handle (attribute lookup on fs_instance) and
the pre_method closure, which mutates the credential-record state γ. -/
structure FSProxy (γ α β : Type) where
  fs_attr : String → PyAttr α β
  pre_method : γ → γ

/-- FSProxy.__getattr__ (libnar.py lines 130-139): look the attribute up on
fs_instance; a non-callable is returned as is, a callable is replaced by a
wrapper that calls pre_method once and then delegates, passing arguments
and result through unchanged. -/
def FSProxy.getattr {γ α β : Type} (p : FSProxy γ α β) (name : String) : ProxyAttr γ α β :=
  match p.fs_attr name with
  | PyAttr.value v => ProxyAttr.value v
  | PyAttr.callable f => ProxyAttr.wrapped (fun s args => (p.pre_method s, f args))

/-- The GCP storage session Narcon.get_storage builds: the shared credential
record (cs.cred_info) and the gcsfs handle FSProxy wraps, built once by
cs.get_fs() from the token the record held at that moment. -/
structure GcpStorageSession where
  cred_info : GCPCredInfo
  fs_instance : GCSFileSystem
deriving DecidableEq

/-- Narcon.get_storage for cloud_vendor gcp, after remote_storage has filled
the record: fs = FSProxy(cs.get_fs(), refresh lambda), with the handle baked
from the current token. -/
def get_storage_gcp (g : GCPCredInfo) : GcpStorageSession :=
  { cred_info := g, fs_instance := set_gcp_fs g }

/-- One dispatched operation and what it observed. -/
structure DispatchOut where
  res : PyResult Unit
  cred_info : GCPCredInfo
  used_token : Option String
deriving DecidableEq

/-- A proxied fs operation on a GCP session: the FSProxy wrapper runs the
refresh pre_method on the shared record, then executes the already-bound
method of the fs_instance handle — which still carries the token it was
constructed with, since neither FSProxy nor the refresh rebuilds it.
used_token records the token the operation goes out with; on a pre_method
exception the operation does not run. -/
def fsproxy_dispatch_gcp (env : Env) (st : GcpStorageSession) : DispatchOut :=
  let r := refresh_token_if_expired env (CredInfo.gcp st.cred_info) "gcp"
  let g' := match r.cred with
    | CredInfo.gcp g => g
    | _ => st.cred_info
  match r.res with
  | PyResult.exn m => { res := PyResult.exn m, cred_info := g', used_token := none }
  | PyResult.ok _ => { res := PyResult.ok (), cred_info := g', used_token := st.fs_instance.token }

-- ---------------------------------------------------------------------------
-- Spec-side definitions and concrete fixtures.
-- ---------------------------------------------------------------------------

/-- Modelled from the spec: the canonical JSON serialization the spec
prescribes for the signed-request token, written out literally with the
keys of every object in sorted order (headers before method before url,
and key before value), separators "," and ":" and no extraneous
whitespace. Compared against dumpsCallerIdentityToken, which serializes
the insertion-ordered dicts of the source through a genuine key sort. -/
def canonical_caller_identity_json (r : AWSRequest) : String :=
  "\x7b" ++ commaJoin
    [jsonString "headers" ++ ":" ++
       ("[" ++ commaJoin (r.headers.map (fun kv =>
          "\x7b" ++ commaJoin
            [jsonString "key" ++ ":" ++ jsonString kv.1,
             jsonString "value" ++ ":" ++ jsonString kv.2] ++ "\x7d")) ++ "]"),
     jsonString "method" ++ ":" ++ jsonString r.method,
     jsonString "url" ++ ":" ++ jsonString r.url] ++ "\x7d"

/-- Substring test: some suffix of s starts with pat. -/
def strContainsSub (s pat : String) : Bool :=
  (s.toList.tails.any (fun t => pat.toList.isPrefixOf t))

/-- Modelled from the spec: an error message enumerates the valid vendor
set when it mentions each of aws, gcp and azure. -/
def enumerates_valid_vendors (msg : String) : Bool :=
  strContainsSub msg "aws" && strContainsSub msg "gcp" && strContainsSub msg "azure"

/-- A concrete environment in which every remote leg succeeds: the signer
returns a fixed tiny signed request, Cognito hands out an OpenID token and
temporary credentials, the STS exchange answers 200 with an access token,
impersonation answers 200 with accessToken and expireTime, and every
stored expiry parses to an instant (epoch 0, UTC) that lies before now. -/
def stubEnv : Env :=
  { sign := fun _ _ _ _ => { method := "POST", url := "u", headers := [] },
    env_aws_cred := PyResult.ok { access_key_id := "AKID", secret_key := "SK", session_token := "ST" },
    cognito_openid := PyResult.ok "OPENID",
    cognito_creds := PyResult.ok { access_key_id := "CAK", secret_key := "CSK", session_token := "CST" },
    sts_response := PyResult.ok { status := 200, body := [("access_token", "STSTOK")] },
    impersonate := fun _ =>
      PyResult.ok { status := 200, body := [("accessToken", "IMPTOK"), ("expireTime", "2099-01-01T00:00:00Z")] },
    azure_token := PyResult.ok { token := "AZTOK", expires_on := 4102444800 },
    isoparse := fun _ => { epoch := 0, tz := TZInfo.utc },
    now := 1000,
    debug := false }

-- ---------------------------------------------------------------------------
-- Claim theorems.
-- ---------------------------------------------------------------------------

/-- C9: for every credential record, running the refresh gate with
cloud_vendor aws falls through both vendor branches: no field of the
record is mutated, no exchange pipeline is invoked and no network call is
issued. -/
theorem claim9_aws_gate_noop (env : Env) (cred : CredInfo) :
    refresh_token_if_expired env cred "aws" =
      { res := PyResult.ok (), cred := cred, calls := [] } := rfl

/-- C10: FSProxy.__getattr__ returns a non-callable attribute of the
wrapped handle directly, without involving the pre-dispatch refresh check,
and replaces a callable attribute by a wrapper that applies pre_method
exactly once and then the underlying callable, with arguments and return
value passed through unchanged. -/
theorem claim10_fsproxy_getattr (γ α β : Type) (p : FSProxy γ α β) (name : String) :
    (∀ v, p.fs_attr name = PyAttr.value v → p.getattr name = ProxyAttr.value v)
    ∧ (∀ f, p.fs_attr name = PyAttr.callable f →
        p.getattr name = ProxyAttr.wrapped (fun s args => (p.pre_method s, f args))) := by
  constructor
  · intro v h
    simp [FSProxy.getattr, h]
  · intro f h
    simp [FSProxy.getattr, h]

/-- A wrapped handle with one callable attribute (ls) and one plain data
attribute (anything else), over Nat states and arguments. -/
def fsAttrW (name : String) : PyAttr Nat Nat :=
  cond (name == "ls") (PyAttr.callable (fun a => a + 1)) (PyAttr.value 7)

/-- A concrete proxy over fsAttrW whose pre_method increments the state. -/
def proxyW : FSProxy Nat Nat Nat :=
  { fs_attr := fsAttrW, pre_method := fun s => s + 1 }

/-- Witness for C10 at the concrete proxy: the callable attribute comes
back wrapped with the one pre_method application, the data attribute comes
back untouched. -/
theorem claim10_fsproxy_getattr_witness :
    proxyW.getattr "ls" = ProxyAttr.wrapped (fun s args => (proxyW.pre_method s, args + 1))
    ∧ proxyW.getattr "size" = ProxyAttr.value 7 :=
  ⟨(claim10_fsproxy_getattr Nat Nat Nat proxyW "ls").2 (fun a => a + 1) rfl,
   (claim10_fsproxy_getattr Nat Nat Nat proxyW "size").1 7 rfl⟩

/-- C5: a GCP record whose stored expiry parses with any tzinfo other than
tzutc() makes the refresh check raise the UTC configuration error with the
record untouched and no pipeline call issued; the outcome is the same for
every clock value (the binder env covers every now), so the rejection
happens before any comparison with the current time. -/
theorem claim5_non_utc_expiry_rejected (env : Env) (g : GCPCredInfo) (s : String)
    (hs : g.token_expiry = some s) (htz : (env.isoparse s).tz ≠ TZInfo.utc) :
    refresh_token_if_expired env (CredInfo.gcp g) "gcp" =
      { res := PyResult.exn "GCP TOKEN EXPIRY MUST BE IN UTC FORMAT!",
        cred := CredInfo.gcp g, calls := [] } := by
  simp [refresh_token_if_expired, hs, htz]

/-- A record carrying a +02:00 expiry, used with an environment whose
parser returns that non-UTC offset. -/
def gNonUtc : GCPCredInfo :=
  { sa_email := none, audience := none, token_expiry := some "2021-01-01T00:00:00+02:00",
    token := none, project := none, refresh_mode := none }

/-- The stub environment whose parser attaches a +120 minute offset. -/
def envNonUtc : Env :=
  { stubEnv with isoparse := fun _ => { epoch := 1609452000, tz := TZInfo.offset 120 } }

/-- Witness for C5 at the concrete record and parser. -/
theorem claim5_non_utc_expiry_rejected_witness :
    refresh_token_if_expired envNonUtc (CredInfo.gcp gNonUtc) "gcp" =
      { res := PyResult.exn "GCP TOKEN EXPIRY MUST BE IN UTC FORMAT!",
        cred := CredInfo.gcp gNonUtc, calls := [] } :=
  claim5_non_utc_expiry_rejected envNonUtc gNonUtc "2021-01-01T00:00:00+02:00" rfl (by decide)

/-- C6: with a UTC expiry one second in the past the gate judges the token
expired and its outcome is exactly a run of the generate_access_token
pipeline; with a UTC expiry one second in the future it judges the token
fresh and returns with the record untouched and no call issued. -/
theorem claim6_expiry_gate (env : Env) (g : GCPCredInfo) (s : String)
    (hs : g.token_expiry = some s) (hutc : (env.isoparse s).tz = TZInfo.utc) :
    ((env.isoparse s).epoch = env.now - 1 →
      refresh_token_if_expired env (CredInfo.gcp g) "gcp" =
        { res := (generate_access_token env g).res,
          cred := CredInfo.gcp (generate_access_token env g).cred,
          calls := (generate_access_token env g).calls })
    ∧ ((env.isoparse s).epoch = env.now + 1 →
      refresh_token_if_expired env (CredInfo.gcp g) "gcp" =
        { res := PyResult.ok (), cred := CredInfo.gcp g, calls := [] }) := by
  constructor
  · intro hpast
    simp [refresh_token_if_expired, hs, hutc, hpast]
  · intro hfut
    simp [refresh_token_if_expired, hs, hutc, hfut]

/-- A record whose expiry string parses, under stubEnv, to one second
before the stub clock. -/
def gExpired : GCPCredInfo :=
  { sa_email := none, audience := none, token_expiry := some "1970-01-01T00:16:39Z",
    token := none, project := none, refresh_mode := none }

/-- The stub environment with its parser pinned one second before now. -/
def envExpired : Env :=
  { stubEnv with isoparse := fun _ => { epoch := 999, tz := TZInfo.utc } }

/-- Witness for C6, past branch, at a concrete record (refresh_mode none,
so the triggered pipeline run returns immediately): the gate output equals
the pipeline output. -/
theorem claim6_expiry_gate_witness :
    refresh_token_if_expired envExpired (CredInfo.gcp gExpired) "gcp" =
      { res := (generate_access_token envExpired gExpired).res,
        cred := CredInfo.gcp (generate_access_token envExpired gExpired).cred,
        calls := (generate_access_token envExpired gExpired).calls } :=
  (claim6_expiry_gate envExpired gExpired "1970-01-01T00:16:39Z" rfl rfl).1 rfl

/-- C8: for every audience, explicit credential set and signer behaviour,
get_aws_caller_identity returns exactly the URL-quoting of the canonical
JSON (keys sorted, separators "," and ":", no whitespace) of the url,
method and headers of the signed request, where signing is invoked over
service sts in region us-east-1 on the request that already carries the
x-goog-cloud-target-resource header with the audience. -/
theorem claim8_caller_identity_canonical (env : Env) (audience : String) (c : AwsCred) :
    get_aws_caller_identity env audience (some c) "POST" =
      PyResult.ok (urlquote (canonical_caller_identity_json
        (env.sign c "sts" "us-east-1" (caller_identity_request audience "POST"))))
    ∧ (caller_identity_request audience "POST").headers =
        [("Host", "sts.amazonaws.com"), ("x-goog-cloud-target-resource", audience)] :=
  ⟨rfl, rfl⟩

/-- C3 counterexample: the factory error for the tag bogus is
"Invalid cloud vendor: bogus!", which names the tag but does not mention
aws, gcp or azure, so it does not enumerate the valid set as the claim
states. -/
theorem claim3_factory_message_cex :
    CloudStorageFactory.create "bogus" = PyResult.exn "Invalid cloud vendor: bogus!"
    ∧ enumerates_valid_vendors "Invalid cloud vendor: bogus!" = false := by
  refine ⟨rfl, ?_⟩
  decide

/-- C3 amended: a tag inside the valid set yields a CloudStorage for that
vendor; a tag outside the set raises a configuration error whose message
names the offending tag (but does not enumerate the valid set). -/
theorem claim3_factory_amended (v : String) :
    (VALID_CLOUD_VENDORS.contains v = true →
      CloudStorageFactory.create v = PyResult.ok { cloud_vendor := v })
    ∧ (VALID_CLOUD_VENDORS.contains v = false →
      CloudStorageFactory.create v = PyResult.exn ("Invalid cloud vendor: " ++ v ++ "!")) := by
  constructor <;> intro h <;> unfold CloudStorageFactory.create <;> rw [h] <;> rfl

/-- Witness for C3 amended at one valid and one invalid tag. -/
theorem claim3_factory_amended_witness :
    CloudStorageFactory.create "gcp" = PyResult.ok { cloud_vendor := "gcp" }
    ∧ CloudStorageFactory.create "dropbox" = PyResult.exn "Invalid cloud vendor: dropbox!" :=
  ⟨(claim3_factory_amended "gcp").1 rfl, (claim3_factory_amended "dropbox").2 rfl⟩

/-- C2 counterexample: a 2xx STS response whose body has no access_token
field makes get_gcp_sts_token return None silently — the call succeeds
instead of raising the fatal federation error the claim requires. -/
def envStsNoToken : Env :=
  { stubEnv with sts_response := PyResult.ok { status := 200, body := [("token_type", "Bearer")] } }

/-- C2 counterexample at the concrete 2xx response without access_token:
the result is ok None, not an exception. -/
theorem claim2_missing_token_cex :
    (get_gcp_sts_token envStsNoToken "aud" "subject").1 = PyResult.ok none := rfl

/-- C2 amended: every call issues exactly one STS exchange request (no
retry at this layer); a connection failure or any non-2xx response raises
the fatal FAILED TO RETRIEVE GCP STS TOKEN error; a 2xx response returns
body.get("access_token"), which is silently None when the field is
missing. -/
theorem claim2_sts_exchange_amended (env : Env) (a s : String) :
    (get_gcp_sts_token env a s).2 = [NetCall.stsExchange]
    ∧ (∀ m, env.sts_response = PyResult.exn m →
        (get_gcp_sts_token env a s).1 = PyResult.exn ("FAILED TO RETRIEVE GCP STS TOKEN: " ++ m))
    ∧ (∀ r, env.sts_response = PyResult.ok r → is_success r.status = false →
        (get_gcp_sts_token env a s).1 =
          PyResult.exn "FAILED TO RETRIEVE GCP STS TOKEN: HTTPStatusError")
    ∧ (∀ r, env.sts_response = PyResult.ok r → is_success r.status = true →
        (get_gcp_sts_token env a s).1 = PyResult.ok (pyGet r.body "access_token")) := by
  refine ⟨?_, ?_, ?_, ?_⟩
  · cases h : env.sts_response with
    | exn m => simp [get_gcp_sts_token, h]
    | ok r => cases hb : is_success r.status <;> simp [get_gcp_sts_token, h, hb]
  · intro m h
    simp [get_gcp_sts_token, h]
  · intro r h hb
    simp [get_gcp_sts_token, h, hb]
  · intro r h hb
    simp [get_gcp_sts_token, h, hb]

/-- Witness for C2 amended: a 503 response raises the fatal error, and
under the all-success stub the token of the body comes back. -/
theorem claim2_sts_exchange_amended_witness :
    (get_gcp_sts_token { stubEnv with sts_response := PyResult.ok { status := 503, body := [] } }
        "aud" "subject").1 =
      PyResult.exn "FAILED TO RETRIEVE GCP STS TOKEN: HTTPStatusError"
    ∧ (get_gcp_sts_token stubEnv "aud" "subject").1 = PyResult.ok (some "STSTOK") :=
  ⟨(claim2_sts_exchange_amended
      { stubEnv with sts_response := PyResult.ok { status := 503, body := [] } }
      "aud" "subject").2.2.1 { status := 503, body := [] } rfl rfl,
   (claim2_sts_exchange_amended stubEnv "aud" "subject").2.2.2
      { status := 200, body := [("access_token", "STSTOK")] } rfl rfl⟩

/-- An external-mode record with no final service-account email. -/
def gExternalNoSa : GCPCredInfo :=
  { sa_email := none, audience := none, token_expiry := none,
    token := none, project := none, refresh_mode := some "external" }

/-- C1 counterexample: under the all-success stub environment, the
external-mode refresh with sa_email unset does raise SA EMAIL NOT SET, but
only after three network calls (the two Cognito identity-pool calls and
the STS exchange) have been issued — not zero as the claim states. -/
theorem claim1_fail_fast_cex :
    generate_access_token stubEnv gExternalNoSa =
      { res := PyResult.exn "SA EMAIL NOT SET", cred := gExternalNoSa,
        calls := [NetCall.cognitoOpenId, NetCall.cognitoCreds, NetCall.stsExchange] }
    ∧ (generate_access_token stubEnv gExternalNoSa).calls ≠ [] := by
  refine ⟨rfl, ?_⟩
  decide

/-- C1 amended: with refresh_mode external and sa_email unset, the
configuration error SA EMAIL NOT SET is raised before any impersonation
call and without mutating the record, but only after the signing-credential
fetch and the STS exchange: when those legs succeed, exactly the two
Cognito calls and one STS exchange have been issued at the moment the
error surfaces. -/
theorem claim1_fail_fast_amended (env : Env) (g : GCPCredInfo)
    (hm : g.refresh_mode = some "external") (hsa : g.sa_email = none)
    (t : String) (c : AwsCred) (r : HttpResponse)
    (hco : env.cognito_openid = PyResult.ok t) (hcc : env.cognito_creds = PyResult.ok c)
    (hsr : env.sts_response = PyResult.ok r) (hok : is_success r.status = true) :
    generate_access_token env g =
      { res := PyResult.exn "SA EMAIL NOT SET", cred := g,
        calls := [NetCall.cognitoOpenId, NetCall.cognitoCreds, NetCall.stsExchange] } := by
  simp [generate_access_token, get_cognito_token, get_aws_caller_identity, get_aws_cred_session,
        get_gcp_sts_token, hm, hsa, hco, hcc, hsr, hok]

/-- Witness for C1 amended at the stub environment. -/
theorem claim1_fail_fast_amended_witness :
    generate_access_token
        { stubEnv with impersonate := fun _ => PyResult.exn "unreachable" } gExternalNoSa =
      { res := PyResult.exn "SA EMAIL NOT SET", cred := gExternalNoSa,
        calls := [NetCall.cognitoOpenId, NetCall.cognitoCreds, NetCall.stsExchange] } :=
  claim1_fail_fast_amended
    { stubEnv with impersonate := fun _ => PyResult.exn "unreachable" } gExternalNoSa
    rfl rfl "OPENID" { access_key_id := "CAK", secret_key := "CSK", session_token := "CST" }
    { status := 200, body := [("access_token", "STSTOK")] } rfl rfl rfl rfl

/-- C7 amended: the record mutation of generate_access_token is fully
characterized. First, every run lands in one of three shapes: record
untouched; token and token_expiry written together, with a successful
result and a successful (2xx) final impersonation response carrying both
accessToken and expireTime; or token alone written, together with the
KeyError: expireTime error and a successful final response carrying
accessToken but no expireTime — so a token-only write can only arise from
the final response lacking expireTime, never from a failing network step.
Second, every run that raises leaves the record unchanged except exactly
that evidenced partial case. The remaining four parts state the converse
per mode: an internal or external pipeline whose every network step
succeeded ends in exactly the atomic double write when the final body
carries both fields, and in exactly the token-only partial write when the
final body lacks expireTime. -/
theorem claim7_token_write_amended (env : Env) (g : GCPCredInfo) :
    ((generate_access_token env g).cred = g
     ∨ (∃ sa r t e,
          ((g.refresh_mode = some "internal" ∧ sa = NARWHAL_SA)
            ∨ (g.refresh_mode = some "external" ∧ g.sa_email = some sa))
          ∧ env.impersonate sa = PyResult.ok r ∧ is_success r.status = true
          ∧ pyGet r.body "accessToken" = some t ∧ pyGet r.body "expireTime" = some e
          ∧ (generate_access_token env g).cred = { g with token := some t, token_expiry := some e }
          ∧ (generate_access_token env g).res = PyResult.ok ())
     ∨ (∃ sa r t,
          ((g.refresh_mode = some "internal" ∧ sa = NARWHAL_SA)
            ∨ (g.refresh_mode = some "external" ∧ g.sa_email = some sa))
          ∧ env.impersonate sa = PyResult.ok r ∧ is_success r.status = true
          ∧ pyGet r.body "accessToken" = some t ∧ pyGet r.body "expireTime" = none
          ∧ (generate_access_token env g).cred = { g with token := some t }
          ∧ (generate_access_token env g).res = PyResult.exn "KeyError: expireTime"))
    ∧ (∀ m, (generate_access_token env g).res = PyResult.exn m →
        (generate_access_token env g).cred = g
        ∨ (∃ sa r t,
            ((g.refresh_mode = some "internal" ∧ sa = NARWHAL_SA)
              ∨ (g.refresh_mode = some "external" ∧ g.sa_email = some sa))
            ∧ env.impersonate sa = PyResult.ok r ∧ is_success r.status = true
            ∧ pyGet r.body "accessToken" = some t ∧ pyGet r.body "expireTime" = none
            ∧ (generate_access_token env g).cred = { g with token := some t }))
    ∧ (∀ aud c r r2 t, g.refresh_mode = some "internal" → g.audience = some aud →
        env.env_aws_cred = PyResult.ok c →
        env.sts_response = PyResult.ok r → is_success r.status = true →
        env.impersonate NARWHAL_SA = PyResult.ok r2 → is_success r2.status = true →
        pyGet r2.body "accessToken" = some t → pyGet r2.body "expireTime" = none →
        generate_access_token env g =
          { res := PyResult.exn "KeyError: expireTime", cred := { g with token := some t },
            calls := [NetCall.stsExchange, NetCall.impersonate NARWHAL_SA] })
    ∧ (∀ aud c r r2 t e, g.refresh_mode = some "internal" → g.audience = some aud →
        env.env_aws_cred = PyResult.ok c →
        env.sts_response = PyResult.ok r → is_success r.status = true →
        env.impersonate NARWHAL_SA = PyResult.ok r2 → is_success r2.status = true →
        pyGet r2.body "accessToken" = some t → pyGet r2.body "expireTime" = some e →
        generate_access_token env g =
          { res := PyResult.ok (),
            cred := { g with token := some t, token_expiry := some e },
            calls := [NetCall.stsExchange, NetCall.impersonate NARWHAL_SA] })
    ∧ (∀ tok c sa r r2 t2 r3 t, g.refresh_mode = some "external" → g.sa_email = some sa →
        env.cognito_openid = PyResult.ok tok → env.cognito_creds = PyResult.ok c →
        env.sts_response = PyResult.ok r → is_success r.status = true →
        env.impersonate SAMA_EXT_SA = PyResult.ok r2 → is_success r2.status = true →
        pyGet r2.body "accessToken" = some t2 →
        env.impersonate sa = PyResult.ok r3 → is_success r3.status = true →
        pyGet r3.body "accessToken" = some t → pyGet r3.body "expireTime" = none →
        generate_access_token env g =
          { res := PyResult.exn "KeyError: expireTime", cred := { g with token := some t },
            calls := [NetCall.cognitoOpenId, NetCall.cognitoCreds, NetCall.stsExchange,
                      NetCall.impersonate SAMA_EXT_SA, NetCall.impersonate sa] })
    ∧ (∀ tok c sa r r2 t2 r3 t e, g.refresh_mode = some "external" → g.sa_email = some sa →
        env.cognito_openid = PyResult.ok tok → env.cognito_creds = PyResult.ok c →
        env.sts_response = PyResult.ok r → is_success r.status = true →
        env.impersonate SAMA_EXT_SA = PyResult.ok r2 → is_success r2.status = true →
        pyGet r2.body "accessToken" = some t2 →
        env.impersonate sa = PyResult.ok r3 → is_success r3.status = true →
        pyGet r3.body "accessToken" = some t → pyGet r3.body "expireTime" = some e →
        generate_access_token env g =
          { res := PyResult.ok (),
            cred := { g with token := some t, token_expiry := some e },
            calls := [NetCall.cognitoOpenId, NetCall.cognitoCreds, NetCall.stsExchange,
                      NetCall.impersonate SAMA_EXT_SA, NetCall.impersonate sa] }) := by
  have htri :
      (generate_access_token env g).cred = g
      ∨ (∃ sa r t e,
           ((g.refresh_mode = some "internal" ∧ sa = NARWHAL_SA)
             ∨ (g.refresh_mode = some "external" ∧ g.sa_email = some sa))
           ∧ env.impersonate sa = PyResult.ok r ∧ is_success r.status = true
           ∧ pyGet r.body "accessToken" = some t ∧ pyGet r.body "expireTime" = some e
           ∧ (generate_access_token env g).cred = { g with token := some t, token_expiry := some e }
           ∧ (generate_access_token env g).res = PyResult.ok ())
      ∨ (∃ sa r t,
           ((g.refresh_mode = some "internal" ∧ sa = NARWHAL_SA)
             ∨ (g.refresh_mode = some "external" ∧ g.sa_email = some sa))
           ∧ env.impersonate sa = PyResult.ok r ∧ is_success r.status = true
           ∧ pyGet r.body "accessToken" = some t ∧ pyGet r.body "expireTime" = none
           ∧ (generate_access_token env g).cred = { g with token := some t }
           ∧ (generate_access_token env g).res = PyResult.exn "KeyError: expireTime") := by
    rcases hm : g.refresh_mode with _ | m
    · left
      simp [generate_access_token, hm]
    by_cases hi : m = "internal"
    · subst hi
      rcases ha : g.audience with _ | aud
      · left
        simp [generate_access_token, hm, ha]
      cases hc : env.env_aws_cred with
      | exn msg =>
        left
        simp [generate_access_token, get_aws_caller_identity, get_aws_cred_session, hm, ha, hc]
      | ok c =>
        cases hs : env.sts_response with
        | exn msg =>
          left
          simp [generate_access_token, get_aws_caller_identity, get_aws_cred_session,
                get_gcp_sts_token, hm, ha, hc, hs]
        | ok r =>
          cases hb : is_success r.status with
          | false =>
            left
            simp [generate_access_token, get_aws_caller_identity, get_aws_cred_session,
                  get_gcp_sts_token, hm, ha, hc, hs, hb]
          | true =>
            cases hi2 : env.impersonate NARWHAL_SA with
            | exn msg =>
              left
              simp [generate_access_token, get_aws_caller_identity, get_aws_cred_session,
                    get_gcp_sts_token, gcp_impersonate_token, hm, ha, hc, hs, hb, hi2]
            | ok r2 =>
              cases hb2 : is_success r2.status with
              | false =>
                left
                simp [generate_access_token, get_aws_caller_identity, get_aws_cred_session,
                      get_gcp_sts_token, gcp_impersonate_token, hm, ha, hc, hs, hb, hi2, hb2]
              | true =>
                rcases hat : pyGet r2.body "accessToken" with _ | t
                · left
                  simp [generate_access_token, get_aws_caller_identity, get_aws_cred_session,
                        get_gcp_sts_token, gcp_impersonate_token, assign_token_fields,
                        hm, ha, hc, hs, hb, hi2, hb2, hat]
                · rcases hex : pyGet r2.body "expireTime" with _ | e
                  · refine Or.inr (Or.inr
                      ⟨NARWHAL_SA, r2, t, Or.inl ⟨rfl, rfl⟩, hi2, hb2, hat, hex, ?_, ?_⟩)
                    · simp [generate_access_token, get_aws_caller_identity, get_aws_cred_session,
                            get_gcp_sts_token, gcp_impersonate_token, assign_token_fields,
                            hm, ha, hc, hs, hb, hi2, hb2, hat, hex]
                    · simp [generate_access_token, get_aws_caller_identity, get_aws_cred_session,
                            get_gcp_sts_token, gcp_impersonate_token, assign_token_fields,
                            hm, ha, hc, hs, hb, hi2, hb2, hat, hex]
                  · refine Or.inr (Or.inl
                      ⟨NARWHAL_SA, r2, t, e, Or.inl ⟨rfl, rfl⟩, hi2, hb2, hat, hex, ?_, ?_⟩)
                    · simp [generate_access_token, get_aws_caller_identity, get_aws_cred_session,
                            get_gcp_sts_token, gcp_impersonate_token, assign_token_fields,
                            hm, ha, hc, hs, hb, hi2, hb2, hat, hex]
                    · simp [generate_access_token, get_aws_caller_identity, get_aws_cred_session,
                            get_gcp_sts_token, gcp_impersonate_token, assign_token_fields,
                            hm, ha, hc, hs, hb, hi2, hb2, hat, hex]
    by_cases he : m = "external"
    · subst he
      cases hco : env.cognito_openid with
      | exn msg =>
        left
        simp [generate_access_token, get_cognito_token, hm, hi, hco]
      | ok tok =>
        cases hcc : env.cognito_creds with
        | exn msg =>
          left
          simp [generate_access_token, get_cognito_token, hm, hi, hco, hcc]
        | ok c =>
          cases hs : env.sts_response with
          | exn msg =>
            left
            simp [generate_access_token, get_cognito_token, get_aws_caller_identity,
                  get_aws_cred_session, get_gcp_sts_token, hm, hi, hco, hcc, hs]
          | ok r =>
            cases hb : is_success r.status with
            | false =>
              left
              simp [generate_access_token, get_cognito_token, get_aws_caller_identity,
                    get_aws_cred_session, get_gcp_sts_token, hm, hi, hco, hcc, hs, hb]
            | true =>
              cases hsa : g.sa_email with
              | none =>
                left
                simp [generate_access_token, get_cognito_token, get_aws_caller_identity,
                      get_aws_cred_session, get_gcp_sts_token, hm, hi, hco, hcc, hs, hb, hsa]
              | some sa =>
                cases hi2 : env.impersonate SAMA_EXT_SA with
                | exn msg =>
                  left
                  simp [generate_access_token, get_cognito_token, get_aws_caller_identity,
                        get_aws_cred_session, get_gcp_sts_token, gcp_impersonate_token,
                        hm, hi, hco, hcc, hs, hb, hsa, hi2]
                | ok r2 =>
                  cases hb2 : is_success r2.status with
                  | false =>
                    left
                    simp [generate_access_token, get_cognito_token, get_aws_caller_identity,
                          get_aws_cred_session, get_gcp_sts_token, gcp_impersonate_token,
                          hm, hi, hco, hcc, hs, hb, hsa, hi2, hb2]
                  | true =>
                    cases hat : pyGet r2.body "accessToken" with
                    | none =>
                      left
                      simp [generate_access_token, get_cognito_token, get_aws_caller_identity,
                            get_aws_cred_session, get_gcp_sts_token, gcp_impersonate_token,
                            hm, hi, hco, hcc, hs, hb, hsa, hi2, hb2, hat]
                    | some ext_tok =>
                      cases hi3 : env.impersonate sa with
                      | exn msg =>
                        left
                        simp [generate_access_token, get_cognito_token, get_aws_caller_identity,
                              get_aws_cred_session, get_gcp_sts_token, gcp_impersonate_token,
                              hm, hi, hco, hcc, hs, hb, hsa, hi2, hb2, hat, hi3]
                      | ok r3 =>
                        cases hb3 : is_success r3.status with
                        | false =>
                          left
                          simp [generate_access_token, get_cognito_token, get_aws_caller_identity,
                                get_aws_cred_session, get_gcp_sts_token, gcp_impersonate_token,
                                hm, hi, hco, hcc, hs, hb, hsa, hi2, hb2, hat, hi3, hb3]
                        | true =>
                          rcases hat3 : pyGet r3.body "accessToken" with _ | t
                          · left
                            simp [generate_access_token, get_cognito_token, get_aws_caller_identity,
                                  get_aws_cred_session, get_gcp_sts_token, gcp_impersonate_token,
                                  assign_token_fields,
                                  hm, hi, hco, hcc, hs, hb, hsa, hi2, hb2, hat, hi3, hb3, hat3]
                          · rcases hex : pyGet r3.body "expireTime" with _ | e
                            · refine Or.inr (Or.inr
                                ⟨sa, r3, t, Or.inr ⟨rfl, rfl⟩, hi3, hb3, hat3, hex, ?_, ?_⟩)
                              · simp [generate_access_token, get_cognito_token,
                                      get_aws_caller_identity, get_aws_cred_session,
                                      get_gcp_sts_token, gcp_impersonate_token, assign_token_fields,
                                      hm, hi, hco, hcc, hs, hb, hsa, hi2, hb2, hat, hi3, hb3,
                                      hat3, hex]
                              · simp [generate_access_token, get_cognito_token,
                                      get_aws_caller_identity, get_aws_cred_session,
                                      get_gcp_sts_token, gcp_impersonate_token, assign_token_fields,
                                      hm, hi, hco, hcc, hs, hb, hsa, hi2, hb2, hat, hi3, hb3,
                                      hat3, hex]
                            · refine Or.inr (Or.inl
                                ⟨sa, r3, t, e, Or.inr ⟨rfl, rfl⟩, hi3, hb3, hat3, hex, ?_, ?_⟩)
                              · simp [generate_access_token, get_cognito_token,
                                      get_aws_caller_identity, get_aws_cred_session,
                                      get_gcp_sts_token, gcp_impersonate_token, assign_token_fields,
                                      hm, hi, hco, hcc, hs, hb, hsa, hi2, hb2, hat, hi3, hb3,
                                      hat3, hex]
                              · simp [generate_access_token, get_cognito_token,
                                      get_aws_caller_identity, get_aws_cred_session,
                                      get_gcp_sts_token, gcp_impersonate_token, assign_token_fields,
                                      hm, hi, hco, hcc, hs, hb, hsa, hi2, hb2, hat, hi3, hb3,
                                      hat3, hex]
    · left
      simp [generate_access_token, hm, hi, he]
  refine ⟨htri, ?_, ?_, ?_, ?_, ?_⟩
  · intro m hres
    rcases htri with h1 | ⟨sa, r, t, e, hlink, hir, hsu, hat, hex, hcred, hok⟩ |
      ⟨sa, r, t, hlink, hir, hsu, hat, hex, hcred, hkey⟩
    · exact Or.inl h1
    · rw [hok] at hres
      simp at hres
    · exact Or.inr ⟨sa, r, t, hlink, hir, hsu, hat, hex, hcred⟩
  · intro aud c r r2 t hm ha hc hs hb hi2 hb2 hat hex
    simp [generate_access_token, get_aws_caller_identity, get_aws_cred_session,
          get_gcp_sts_token, gcp_impersonate_token, assign_token_fields,
          hm, ha, hc, hs, hb, hi2, hb2, hat, hex]
  · intro aud c r r2 t e hm ha hc hs hb hi2 hb2 hat hex
    simp [generate_access_token, get_aws_caller_identity, get_aws_cred_session,
          get_gcp_sts_token, gcp_impersonate_token, assign_token_fields,
          hm, ha, hc, hs, hb, hi2, hb2, hat, hex]
  · intro tok c sa r r2 t2 r3 t hm hsa hco hcc hs hb hi2 hb2 hat2 hi3 hb3 hat hex
    simp [generate_access_token, get_cognito_token, get_aws_caller_identity,
          get_aws_cred_session, get_gcp_sts_token, gcp_impersonate_token, assign_token_fields,
          hm, hsa, hco, hcc, hs, hb, hi2, hb2, hat2, hi3, hb3, hat, hex]
  · intro tok c sa r r2 t2 r3 t e hm hsa hco hcc hs hb hi2 hb2 hat2 hi3 hb3 hat hex
    simp [generate_access_token, get_cognito_token, get_aws_caller_identity,
          get_aws_cred_session, get_gcp_sts_token, gcp_impersonate_token, assign_token_fields,
          hm, hsa, hco, hcc, hs, hb, hi2, hb2, hat2, hi3, hb3, hat, hex]

/-- An environment whose impersonation endpoint answers 200 with an
accessToken but no expireTime field. -/
def envNoExpire : Env :=
  { stubEnv with impersonate := fun _ =>
      PyResult.ok { status := 200, body := [("accessToken", "NEWTOK")] } }

/-- An internal-mode record holding a previous token and expiry. -/
def gInternalOld : GCPCredInfo :=
  { sa_email := none, audience := some "aud", token_expiry := some "2020-01-01T00:00:00Z",
    token := some "OLDTOK", project := none, refresh_mode := some "internal" }

/-- C7 counterexample: with every network step succeeding but the final
impersonation body lacking expireTime, the refresh raises the KeyError yet
has already written the new token — the record is left partially updated
(new token, stale expiry), which the claim rules out. -/
theorem claim7_partial_write_cex :
    (generate_access_token envNoExpire gInternalOld).res = PyResult.exn "KeyError: expireTime"
    ∧ (generate_access_token envNoExpire gInternalOld).cred.token = some "NEWTOK"
    ∧ (generate_access_token envNoExpire gInternalOld).cred.token_expiry =
        some "2020-01-01T00:00:00Z" :=
  ⟨rfl, rfl, rfl⟩

/-- Witness for C7 amended: the internal-mode partial-write part applied
at the concrete record and environment of the counterexample, with every
hypothesis discharged. -/
theorem claim7_token_write_amended_witness :
    generate_access_token envNoExpire gInternalOld =
      { res := PyResult.exn "KeyError: expireTime",
        cred := { gInternalOld with token := some "NEWTOK" },
        calls := [NetCall.stsExchange, NetCall.impersonate NARWHAL_SA] } :=
  (claim7_token_write_amended envNoExpire gInternalOld).2.2.1
    "aud" { access_key_id := "AKID", secret_key := "SK", session_token := "ST" }
    { status := 200, body := [("access_token", "STSTOK")] }
    { status := 200, body := [("accessToken", "NEWTOK")] } "NEWTOK"
    rfl rfl rfl rfl rfl rfl rfl rfl rfl

/-- C4 failing input: a GCP session whose record holds an expired token
OLDTOK baked into the gcsfs handle at construction; the stub pipeline
refreshes the record to IMPTOK, yet the dispatched operation still goes
out with OLDTOK because neither FSProxy nor the refresh rebuilds the
wrapped handle. This exhibits the divergence from the claim that the
handle is rebuilt with the new token before the operation proceeds. -/
theorem claim4_stale_handle_eval :
    (fsproxy_dispatch_gcp stubEnv (get_storage_gcp gInternalOld)).cred_info.token = some "IMPTOK"
    ∧ (fsproxy_dispatch_gcp stubEnv (get_storage_gcp gInternalOld)).used_token = some "OLDTOK"
    ∧ (fsproxy_dispatch_gcp stubEnv (get_storage_gcp gInternalOld)).used_token ≠
        (fsproxy_dispatch_gcp stubEnv (get_storage_gcp gInternalOld)).cred_info.token := by
  refine ⟨rfl, rfl, ?_⟩
  decide
